import Mathlib

/-!
Verification of the two pipeline hooks of this repository: the scene-scan hook
(hooks/iksvy_scan_scene_tk-maya.py, class ScanSceneHook) and the secondary
pre-publish hook (hooks/iksvy_secondary_pre_publish_tk-maya.py, class
PrePublishHook).  The host application (scene-graph queries, template
resolution, configuration lookup) is modelled as explicit records of oracle
functions; the hook bodies are translated statement by statement.  Fallible
Python code (raised TankError, IndexError) is modelled with Except.
-/

namespace ConfigInicial

/-! ## Python string helpers

Models of the Python string operations the hooks use, written over lists of
characters so that everything evaluates by kernel reduction. -/

/-- Model of Python str.split(sep) for a one-character separator:
always returns a non-empty list of (possibly empty) chunks. -/
def splitOnChar (sep : Char) : List Char → List (List Char)
  | [] => [[]]
  | c :: s =>
    let rest := splitOnChar sep s
    if c = sep then [] :: rest
    else
      match rest with
      | [] => [[c]]
      | r :: rs => (c :: r) :: rs

/-- Fuel-indexed worker for `replaceAll`; the fuel is an upper bound on the
length of the string still to scan, so the recursion is structural. -/
def replaceAllFuel (p r : List Char) : Nat → List Char → List Char
  | _, [] => []
  | 0, s => s
  | fuel + 1, c :: s =>
    if p.isPrefixOf (c :: s) && !p.isEmpty then
      r ++ replaceAllFuel p r fuel (List.drop (p.length - 1) s)
    else
      c :: replaceAllFuel p r fuel s

/-- Model of Python str.replace(p, r) for a non-empty pattern p: replace every
occurrence of p, left to right, without overlap. -/
def replaceAll (p r s : List Char) : List Char :=
  replaceAllFuel p r s.length s

/-- String-level wrapper for `replaceAll`. -/
def pyReplace (s pat repl : String) : String :=
  ⟨replaceAll pat.data repl.data s.data⟩

/-- Model of os.path.basename: the chunk after the last path separator. -/
def basename (p : String) : String :=
  ⟨(splitOnChar '/' p.data).getLastD []⟩

/-- Model of the expression name.split(".")[0] from the scan hook (line 150):
the part of the file name before the first dot.  Python split always returns a
non-empty list, so indexing with 0 never fails. -/
def sanitizeName (n : String) : String :=
  ⟨(splitOnChar '.' n.data).headD []⟩

/-- Model of the Python expression camera[0].upper() + camera[1:]
(scan hook line 173).  Indexing an empty string raises IndexError, hence
the Except return. -/
def capitalizeFirst (s : String) : Except String String :=
  match s.data with
  | [] => Except.error "IndexError: string index out of range"
  | c :: cs => Except.ok ⟨c.toUpper :: cs⟩

/-- Decides whether p occurs as a contiguous substring of the second list. -/
def hasSub (p : List Char) : List Char → Bool
  | [] => p.isEmpty
  | c :: s => p.isPrefixOf (c :: s) || hasSub p s

/-- The render-layer pattern of scan-hook line 139, as a character list:
"defaultRenderLayer". -/
def dLayer : List Char := "defaultRenderLayer".data

/-- The replacement of scan-hook line 139, as a character list: "masterLayer". -/
def mLayer : List Char := "masterLayer".data

/-! ## Data model

The host scene, the template engine and the app configuration are records of
the oracle queries that the two hooks actually perform.  Each field is one
host-API call site. -/

/-- A publish item as built by the scan hook: a dictionary with keys type and
name, and (for rendered_image items only) other_params carrying a path. -/
structure Item where
  type : String
  name : String
  otherParamsPath : Option String := none
deriving DecidableEq

/-- The host scene document, as seen through the queries the hooks make.
sceneName is cmds.file(query=True, sn=True) and is the empty string when the
scene was never saved; abspath models os.path.abspath (it depends on the
process working directory, so it is part of the environment); geometry is
cmds.ls(geometry=True, noIntermediate=True); listCamerasP is
cmds.listCameras(p=True), the enumeration of (perspective) cameras the scan
hook consumes; assemblies is cmds.ls(assemblies=True, long=True); meshesUnder g
is cmds.ls(g, dag=True, type="mesh"); renderLayers is cmds.ls(type="renderLayer");
objExists is cmds.objExists; abcExportExists is mel.eval("exists \"AbcExport\""). -/
structure Scene where
  sceneName : String
  abspath : String → String
  geometry : List String
  listCamerasP : List String
  assemblies : List String
  meshesUnder : String → List String
  renderLayers : List String
  objExists : String → Bool
  abcExportExists : Bool

/-- The field mapping built by the scan hook (lines 142-152) and handed to the
template resolution service. -/
structure TemplateFields where
  mayaCameraName : String
  mayaLayerName : String
  name : String
  version : Nat
deriving DecidableEq

/-- A configured secondary output (only the fields the scan hook reads). -/
structure Output where
  name : String
  tankType : String
deriving DecidableEq

/-- The template resolution service: paths_from_template returns the existing
on-disk paths matching a field mapping, abstract_paths_from_template returns
the abstract (pattern) paths for the same mapping.  Both are external
black-box services. -/
structure Engine where
  pathsFromTemplate : TemplateFields → List String
  abstractPathsFromTemplate : TemplateFields → List String

/-- The app configuration: workVersion models
work_template.get_fields(scene_name)["version"] (an external template-field
extraction) and secondaryOutputs models app.get_setting("secondary_outputs"). -/
structure App where
  workVersion : String → Nat
  secondaryOutputs : List Output

/-! ## Scene scan hook (ScanSceneHook.execute) -/

/-- Lines 80: the camera list, every perspective camera except persp. -/
def cameraList (scene : Scene) : List String :=
  scene.listCamerasP.filter (fun c => c != "persp")

/-- Lines 69-90: the items appended before the rendered-image pass: the
primary work_file item, the aggregate geometry item when the scene has any
geometry, one camera item per listed camera other than persp, and one
mesh_group item per root assembly that has mesh descendants. -/
def baseItems (scene : Scene) (sname : String) : List Item :=
  [⟨"work_file", sname, none⟩]
    ++ (if scene.geometry.isEmpty then [] else [⟨"geometry", "All Scene Geometry", none⟩])
    ++ (cameraList scene).map (fun c => ⟨"camera", c, none⟩)
    ++ ((scene.assemblies.filter (fun g => !(scene.meshesUnder g).isEmpty)).map
        (fun g => ⟨"mesh_group", g, none⟩))

/-- Line 110: the secondary outputs whose tank_type is "Rendered Image". -/
def renderOutputs (app : App) : List Output :=
  app.secondaryOutputs.filter (fun o => o.tankType == "Rendered Image")

/-- Line 139: layer.replace("defaultRenderLayer", "masterLayer"). -/
def normalizeLayer (layer : String) : String :=
  pyReplace layer "defaultRenderLayer" "masterLayer"

/-- Lines 142-152: the field mapping handed to the template service.  The
layer argument is the already-normalized layer name. -/
def buildFields (camera layer sanitized : String) (version : Nat) : TemplateFields :=
  ⟨camera, layer, sanitized, version⟩

/-- Line 173: the display name of a rendered_image item,
"cam" + camera[0].upper() + camera[1:] + "_" + layer. -/
def renderItemName (camera layer : String) : Except String String :=
  match capitalizeFirst camera with
  | Except.error e => Except.error e
  | Except.ok cap => Except.ok ("cam" ++ cap ++ "_" ++ layer)

/-- Lines 136-181, the body of the inner loop of the rendered-image pass for
one (camera, raw layer) pair: normalize the layer name, build the field
mapping, query both template resolutions, and when existing paths were found
emit one rendered_image item named by `renderItemName` and carrying the first
abstract path (paths[0] raises IndexError when the abstract resolution is
empty). -/
def renderItemForLayer (eng : Engine) (sanitized : String) (version : Nat)
    (camera layer0 : String) : Except String (List Item) :=
  let layer := normalizeLayer layer0
  let fields := buildFields camera layer sanitized version
  let pathsExiste := eng.pathsFromTemplate fields
  let paths := eng.abstractPathsFromTemplate fields
  if pathsExiste.isEmpty then Except.ok []
  else
    match renderItemName camera layer with
    | Except.error e => Except.error e
    | Except.ok nm =>
      match paths with
      | [] => Except.error "IndexError: list index out of range"
      | p :: _ => Except.ok [⟨"rendered_image", nm, some p⟩]

/-- Monadic concatenation: run f on every element in order, concatenating the
produced item lists; the first raised error aborts, as a Python loop does. -/
def concatMapM {α : Type} (f : α → Except String (List Item)) :
    List α → Except String (List Item)
  | [] => Except.ok []
  | a :: as =>
    match f a with
    | Except.error e => Except.error e
    | Except.ok xs =>
      match concatMapM f as with
      | Except.error e => Except.error e
      | Except.ok ys => Except.ok (xs ++ ys)

/-- Lines 135-181: the double loop over cameras and render layers. -/
def renderPass (scene : Scene) (eng : Engine) (sanitized : String) (version : Nat) :
    Except String (List Item) :=
  concatMapM
    (fun camera =>
      concatMapM (fun layer0 => renderItemForLayer eng sanitized version camera layer0)
        scene.renderLayers)
    (cameraList scene)

/-- Lines 111-181: the loop over the configured Rendered Image outputs; each
iteration resolves the same maya_shot_render template and repeats the full
camera-by-layer pass. -/
def scanRenderItems (scene : Scene) (eng : Engine) (app : App)
    (sanitized : String) (version : Nat) : Except String (List Item) :=
  concatMapM (fun _ => renderPass scene eng sanitized version) (renderOutputs app)

/-- Lines 58-183, ScanSceneHook.execute: raise TankError when the scene was
never saved, otherwise compute the scene file name, the work-template version
and the sanitized name, and return the base items followed by the
rendered-image items.  A raised error yields no item list at all. -/
def scanItems (scene : Scene) (eng : Engine) (app : App) : Except String (List Item) :=
  if scene.sceneName == "" then
    Except.error "Please Save your file before Publishing"
  else
    let scenePath := scene.abspath scene.sceneName
    let sname := basename scenePath
    let version := app.workVersion scene.sceneName
    let sanitized := sanitizeName sname
    match scanRenderItems scene eng app sanitized version with
    | Except.error e => Except.error e
    | Except.ok rend => Except.ok (baseItems scene sname ++ rend)

/-! ## Pre-publish hook (PrePublishHook.execute)

A task is a dictionary pairing an item with a configured output; the hook only
reads task["item"]["name"] and task["output"]["name"].  The type parameter ε
stands for every other field of the task (the rest of the item and output
dictionaries); the hook never touches it, and a result carries the whole input
task value.  Mutable state (the user_data mapping) is passed explicitly, and
the calls made to the progress callback are recorded in order in a log. -/

/-- A pre-publish task: the two fields the hook reads plus all untouched
payload of the task, item and output dictionaries. -/
structure PublishTask (ε : Type) where
  itemName : String
  outputName : String
  rest : ε
deriving DecidableEq

/-- One entry of the returned list: the input task and its error strings. -/
structure TaskResult (ε : Type) where
  task : PublishTask ε
  errors : List String
deriving DecidableEq

/-- One recorded invocation of progress_cb.  The hook calls it as
progress_cb(0, "Validating", task) and as progress_cb(100). -/
structure ProgressCall (ε : Type) where
  percentage : Nat
  msg : Option String
  task : Option (PublishTask ε)
deriving DecidableEq

/-- Lines 113-141, __validate_item_for_alembic_cache_publish: four checks,
the first three independent, the mesh-descendants check only when the
existence check passed. -/
def validateAlembicItem (scene : Scene) (itemName : String) : List String :=
  (if !scene.abcExportExists then
    ["Could not find the AbcExport command needed to publish Alembic caches!"]
   else [])
  ++ (if scene.geometry.isEmpty then ["The scene does not contain any geometry!"] else [])
  ++ (if !scene.objExists itemName then ["This group couldn\'t be found in the scene!"]
      else if (scene.meshesUnder itemName).isEmpty then
        ["This group doesn\'t appear to contain any meshes!"]
      else [])

/-- Lines 92-102: dispatch on the output name.  rendered_image and camera
validation (lines 144-180) return no errors; an unknown output name yields the
single unsupported-output error. -/
def taskErrors {ε : Type} (scene : Scene) (task : PublishTask ε) : List String :=
  if task.outputName == "alembic_cache" then validateAlembicItem scene task.itemName
  else if task.outputName == "rendered_image" then []
  else if task.outputName == "camera" then []
  else ["Don\'t know how to publish this item!"]

/-- Lines 83-109, the task loop: per task, call progress_cb(0, "Validating",
task), compute the errors, append a result when len(errors) > 0, then call
progress_cb(100).  Returns the result list and the progress-call log. -/
def runTasks {ε : Type} (scene : Scene) :
    List (PublishTask ε) → List (TaskResult ε) × List (ProgressCall ε)
  | [] => ([], [])
  | t :: ts =>
    let errors := taskErrors scene t
    let rest := runTasks scene ts
    ((if errors.length > 0 then ⟨t, errors⟩ :: rest.1 else rest.1),
      ⟨0, some "Validating", some t⟩ :: ⟨100, none, none⟩ :: rest.2)

/-- Lines 80-111, PrePublishHook.execute: validate every task in order and
return the failing tasks.  The user_data mapping is threaded through
unchanged because no statement of the hook reads or writes it. -/
def prePublishExecute {ε υ : Type} (scene : Scene) (tasks : List (PublishTask ε))
    (userData : υ) : List (TaskResult ε) × List (ProgressCall ε) × υ :=
  let run := runTasks scene tasks
  (run.1, run.2, userData)

/-! ## Concrete fixtures

Closed scenes, engines and configurations used by the witness and
counterexample theorems below. -/

/-- A saved scene with one non-default camera and the default render layer. -/
def cScene4 : Scene where
  sceneName := "/proj/shot.v003.ma"
  abspath := fun s => s
  geometry := []
  listCamerasP := ["cam1"]
  assemblies := []
  meshesUnder := fun _ => []
  renderLayers := ["defaultRenderLayer"]
  objExists := fun _ => false
  abcExportExists := false

/-- The same scene saved under a different file name. -/
def cSceneB : Scene := { cScene4 with sceneName := "/proj/other.v003.ma" }

/-- The same scene, never saved. -/
def cUnsaved : Scene := { cScene4 with sceneName := "" }

/-- A template engine whose exact (existing-path) resolution and abstract
resolution return different paths. -/
def cEng4 : Engine where
  pathsFromTemplate := fun _ => ["existing.png"]
  abstractPathsFromTemplate := fun _ => ["abstract.png"]

/-- A configuration with one Rendered Image secondary output. -/
def cApp4 : App where
  workVersion := fun _ => 3
  secondaryOutputs := [⟨"render", "Rendered Image"⟩]

/-- A scene for the pre-publish fixtures: geometry present, AbcExport
available, and only the group named grp existing. -/
def pScene : Scene where
  sceneName := "/p/s.v001.ma"
  abspath := fun s => s
  geometry := ["meshShape"]
  listCamerasP := ["persp", "cam1"]
  assemblies := ["grp"]
  meshesUnder := fun g => if g == "grp" then ["meshShape"] else []
  renderLayers := ["defaultRenderLayer"]
  objExists := fun n => n == "grp"
  abcExportExists := true

/-- An alembic_cache task whose item name does not exist in pScene. -/
def aTask : PublishTask Unit := ⟨"ghost", "alembic_cache", ()⟩

/-- A task with an output name that no validator implements. -/
def uTask : PublishTask Unit := ⟨"grp", "weird_output", ()⟩

/-! ## Lemmas about the string helpers -/

/-- The fuel of `replaceAllFuel` is irrelevant once it bounds the length of
the string. -/
theorem replaceAllFuel_congr (p r : List Char) :
    ∀ (fuel fuel' : Nat) (s : List Char), s.length ≤ fuel → s.length ≤ fuel' →
      replaceAllFuel p r fuel s = replaceAllFuel p r fuel' s := by
  intro fuel
  induction fuel with
  | zero =>
    intro fuel' s hs _
    have : s = [] := List.length_eq_zero.mp (Nat.le_zero.mp hs)
    subst this
    cases fuel' <;> rfl
  | succ fuel ih =>
    intro fuel' s hs hs'
    cases s with
    | nil => cases fuel' <;> rfl
    | cons c s =>
      cases fuel' with
      | zero => exact absurd hs' (by simp)
      | succ fuel' =>
        have hL : replaceAllFuel p r (fuel + 1) (c :: s) =
            if p.isPrefixOf (c :: s) && !p.isEmpty then
              r ++ replaceAllFuel p r fuel (List.drop (p.length - 1) s)
            else c :: replaceAllFuel p r fuel s := rfl
        have hR : replaceAllFuel p r (fuel' + 1) (c :: s) =
            if p.isPrefixOf (c :: s) && !p.isEmpty then
              r ++ replaceAllFuel p r fuel' (List.drop (p.length - 1) s)
            else c :: replaceAllFuel p r fuel' s := rfl
        rw [hL, hR]
        have hlen : s.length ≤ fuel := by simpa using hs
        have hlen' : s.length ≤ fuel' := by simpa using hs'
        have hd : (List.drop (p.length - 1) s).length ≤ s.length := by
          simp [List.length_drop]
        by_cases hc : (p.isPrefixOf (c :: s) && !p.isEmpty) = true
        · simp only [hc, if_true]
          exact congrArg (r ++ ·) (ih fuel' _ (le_trans hd hlen) (le_trans hd hlen'))
        · simp only [eq_false_of_ne_true hc, if_false]
          exact congrArg (c :: ·) (ih fuel' s hlen hlen')

/-- Unfolding equation of `replaceAll` on an empty string. -/
theorem replaceAll_nil (p r : List Char) : replaceAll p r [] = [] := rfl

/-- Unfolding equation of `replaceAll` on a non-empty string. -/
theorem replaceAll_cons (p r : List Char) (c : Char) (s : List Char) :
    replaceAll p r (c :: s) =
      if p.isPrefixOf (c :: s) && !p.isEmpty then
        r ++ replaceAll p r (List.drop (p.length - 1) s)
      else c :: replaceAll p r s := by
  show (if p.isPrefixOf (c :: s) && !p.isEmpty then
      r ++ replaceAllFuel p r s.length (List.drop (p.length - 1) s)
    else c :: replaceAllFuel p r s.length s) = _
  have hd : (List.drop (p.length - 1) s).length ≤ s.length := by
    simp [List.length_drop]
  by_cases hc : (p.isPrefixOf (c :: s) && !p.isEmpty) = true
  · simp only [hc, if_true]
    exact congrArg (r ++ ·) (replaceAllFuel_congr p r _ _ _ hd le_rfl)
  · simp only [eq_false_of_ne_true hc, if_false]
    rfl

/-- With a non-empty replacement, `replaceAll` returns the empty string only
on the empty string. -/
theorem replaceAll_eq_nil (p r : List Char) (hr : r ≠ []) :
    ∀ s : List Char, replaceAll p r s = [] → s = [] := by
  intro s h
  cases s with
  | nil => rfl
  | cons c s =>
    rw [replaceAll_cons] at h
    by_cases hc : (p.isPrefixOf (c :: s) && !p.isEmpty) = true
    · rw [if_pos hc] at h
      exact absurd (List.append_eq_nil.mp h).1 hr
    · rw [if_neg hc] at h
      exact absurd h (by simp)

/-- Key structural fact: if replacing "defaultRenderLayer" by "masterLayer"
in s yields a suffix of "defaultRenderLayer", then s already was that suffix
(so no replacement fired).  The replacement cannot manufacture the pattern
because no suffix of the pattern starts with the replacement. -/
theorem replaceAll_dLayer_eq_dropSuffix :
    ∀ (s : List Char) (i : Nat), i < dLayer.length →
      replaceAll dLayer mLayer s = dLayer.drop i → s = dLayer.drop i := by
  intro s
  induction s with
  | nil =>
    intro i hi h
    rw [replaceAll_nil] at h
    have : (dLayer.drop i).length = 0 := by rw [← h]; rfl
    rw [List.length_drop] at this
    omega
  | cons c s ih =>
    intro i hi h
    rw [replaceAll_cons] at h
    by_cases hc : (dLayer.isPrefixOf (c :: s) && !dLayer.isEmpty) = true
    · rw [if_pos hc] at h
      have htake : (dLayer.drop i).take mLayer.length = mLayer := by
        rw [← h, List.take_left]
      have hforall : ∀ j, j < 18 → (dLayer.drop j).take mLayer.length ≠ mLayer := by decide
      exact absurd htake (hforall i hi)
    · rw [if_neg hc] at h
      have hdrop : dLayer.drop i = dLayer.get ⟨i, hi⟩ :: dLayer.drop (i + 1) :=
        List.drop_eq_getElem_cons hi
      rw [hdrop] at h
      have hc' : c = dLayer.get ⟨i, hi⟩ := (List.cons.injEq _ _ _ _ ▸ h).1
      have htl : replaceAll dLayer mLayer s = dLayer.drop (i + 1) :=
        (List.cons.injEq _ _ _ _ ▸ h).2
      by_cases hi' : i + 1 < dLayer.length
      · have := ih (i + 1) hi' htl
        rw [hdrop, hc', this]
      · have hi18 : i + 1 = dLayer.length := by
          have : dLayer.length = 18 := rfl
          omega
        have hnil : dLayer.drop (i + 1) = [] := by
          rw [hi18, List.drop_length]
        rw [hnil] at htl
        have hs : s = [] := replaceAll_eq_nil dLayer mLayer (by decide) s htl
        rw [hdrop, hc', hs, hnil]

/-- Replacing "defaultRenderLayer" by "masterLayer" never returns the string
"defaultRenderLayer" itself. -/
theorem replaceAll_dLayer_ne (s : List Char) :
    replaceAll dLayer mLayer s ≠ dLayer := by
  intro h
  have h0 : replaceAll dLayer mLayer s = dLayer.drop 0 := h
  have hs : s = dLayer := replaceAll_dLayer_eq_dropSuffix s 0 (by decide) h0
  rw [hs] at h
  have : replaceAll dLayer mLayer dLayer = mLayer := by decide
  rw [this] at h
  exact absurd h (by decide)

/-! ## Helper lemmas about the scan hook -/

/-- Membership in a successful `concatMapM` run comes from a successful run of
the body on some list element. -/
theorem concatMapM_ok_mem {α : Type} (f : α → Except String (List Item)) :
    ∀ (as : List α) (xs : List Item), concatMapM f as = Except.ok xs →
      ∀ x ∈ xs, ∃ a ∈ as, ∃ ys, f a = Except.ok ys ∧ x ∈ ys := by
  intro as
  induction as with
  | nil =>
    intro xs h x hx
    simp only [concatMapM] at h
    cases h
    simp at hx
  | cons a as ih =>
    intro xs h x hx
    simp only [concatMapM] at h
    cases hfa : f a with
    | error e => rw [hfa] at h; cases h
    | ok ys =>
      rw [hfa] at h
      cases hrest : concatMapM f as with
      | error e => rw [hrest] at h; cases h
      | ok zs =>
        rw [hrest] at h
        cases h
        rcases List.mem_append.mp hx with hy | hz
        · exact ⟨a, List.mem_cons_self a as, ys, hfa, hy⟩
        · obtain ⟨b, hb, ws, hws, hw⟩ := ih zs hrest x hz
          exact ⟨b, List.mem_cons_of_mem a hb, ws, hws, hw⟩

/-- Characterization of one successful loop-body run of the rendered-image
pass: either no existing path matched and no item was produced, or the item is
the single rendered_image item named by `renderItemName` and carrying the head
of the abstract path list. -/
theorem renderItemForLayer_ok (eng : Engine) (sanitized : String) (version : Nat)
    (camera layer0 : String) (l : List Item)
    (h : renderItemForLayer eng sanitized version camera layer0 = Except.ok l) :
    (eng.pathsFromTemplate (buildFields camera (normalizeLayer layer0) sanitized version) = []
      ∧ l = [])
    ∨ (∃ nm p ps,
        renderItemName camera (normalizeLayer layer0) = Except.ok nm
        ∧ eng.abstractPathsFromTemplate
            (buildFields camera (normalizeLayer layer0) sanitized version) = p :: ps
        ∧ l = [⟨"rendered_image", nm, some p⟩]) := by
  unfold renderItemForLayer at h
  by_cases hp : (eng.pathsFromTemplate
      (buildFields camera (normalizeLayer layer0) sanitized version)).isEmpty = true
  · left
    rw [if_pos hp] at h
    cases h
    exact ⟨List.isEmpty_iff.mp hp, rfl⟩
  · right
    rw [if_neg hp] at h
    cases hnm : renderItemName camera (normalizeLayer layer0) with
    | error e => rw [hnm] at h; cases h
    | ok nm =>
      rw [hnm] at h
      cases hpaths : eng.abstractPathsFromTemplate
          (buildFields camera (normalizeLayer layer0) sanitized version) with
      | nil => rw [hpaths] at h; cases h
      | cons p ps =>
        rw [hpaths] at h
        cases h
        exact ⟨nm, p, ps, rfl, rfl, rfl⟩

/-- Every item of a successful rendered-image pass is a rendered_image item
produced for some non-persp camera and some scene render layer. -/
theorem scanRenderItems_ok_mem (scene : Scene) (eng : Engine) (app : App)
    (sanitized : String) (version : Nat) (rend : List Item)
    (h : scanRenderItems scene eng app sanitized version = Except.ok rend) :
    ∀ i ∈ rend, ∃ camera ∈ cameraList scene, ∃ layer0 ∈ scene.renderLayers,
      ∃ nm p ps,
        renderItemName camera (normalizeLayer layer0) = Except.ok nm
        ∧ eng.abstractPathsFromTemplate
            (buildFields camera (normalizeLayer layer0) sanitized version) = p :: ps
        ∧ i = ⟨"rendered_image", nm, some p⟩ := by
  intro i hi
  obtain ⟨_out, _hout, ys, hys, hy⟩ := concatMapM_ok_mem _ _ rend h i hi
  obtain ⟨camera, hcam, zs, hzs, hz⟩ := concatMapM_ok_mem _ _ ys hys i hy
  obtain ⟨layer0, hlay, ws, hws, hw⟩ := concatMapM_ok_mem _ _ zs hzs i hz
  rcases renderItemForLayer_ok eng sanitized version camera layer0 ws hws with
    ⟨_, hnil⟩ | ⟨nm, p, ps, hnm, hpaths, hl⟩
  · rw [hnil] at hw; simp at hw
  · rw [hl] at hw
    rw [List.mem_singleton] at hw
    exact ⟨camera, hcam, layer0, hlay, nm, p, ps, hnm, hpaths, hw⟩

/-- Destructuring a successful scan: the scene had a saved name, the
rendered-image pass succeeded, and the returned items are the base items
followed by the rendered-image items. -/
theorem scanItems_ok (scene : Scene) (eng : Engine) (app : App) (its : List Item)
    (h : scanItems scene eng app = Except.ok its) :
    scene.sceneName ≠ "" ∧
    ∃ rend,
      scanRenderItems scene eng app
        (sanitizeName (basename (scene.abspath scene.sceneName)))
        (app.workVersion scene.sceneName) = Except.ok rend
      ∧ its = baseItems scene (basename (scene.abspath scene.sceneName)) ++ rend := by
  simp only [scanItems] at h
  by_cases hn : (scene.sceneName == "") = true
  · rw [if_pos hn] at h; cases h
  · rw [if_neg hn] at h
    refine ⟨by simpa using hn, ?_⟩
    cases hr : scanRenderItems scene eng app
        (sanitizeName (basename (scene.abspath scene.sceneName)))
        (app.workVersion scene.sceneName) with
    | error e => rw [hr] at h; cases h
    | ok rend =>
      rw [hr] at h
      cases h
      exact ⟨rend, rfl, rfl⟩

/-- Every base item is the work_file item, the aggregate geometry item, a
camera item for a listed non-persp camera, or a mesh_group item for a root
assembly. -/
theorem mem_baseItems (scene : Scene) (sname : String) (i : Item)
    (h : i ∈ baseItems scene sname) :
    i = ⟨"work_file", sname, none⟩
    ∨ i = ⟨"geometry", "All Scene Geometry", none⟩
    ∨ (∃ c ∈ cameraList scene, i = ⟨"camera", c, none⟩)
    ∨ (∃ g ∈ scene.assemblies, i = ⟨"mesh_group", g, none⟩) := by
  unfold baseItems at h
  rcases List.mem_append.mp h with h1 | h4
  rcases List.mem_append.mp h1 with h2 | h3
  rcases List.mem_append.mp h2 with hwf | hgeo
  · exact Or.inl (List.mem_singleton.mp hwf)
  · right; left
    by_cases hg : scene.geometry.isEmpty = true
    · rw [if_pos hg] at hgeo; simp at hgeo
    · rw [if_neg hg] at hgeo
      exact List.mem_singleton.mp hgeo
  · right; right; left
    obtain ⟨c, hc, hi⟩ := List.mem_map.mp h3
    exact ⟨c, hc, hi.symm⟩
  · right; right; right
    obtain ⟨g, hg, hi⟩ := List.mem_map.mp h4
    exact ⟨g, List.mem_of_mem_filter hg, hi.symm⟩

/-! ## Helper lemmas about the pre-publish hook -/

/-- The result list of the task loop is exactly the failing tasks, in input
order, each paired with its computed error list. -/
theorem runTasks_results {ε : Type} (scene : Scene) (ts : List (PublishTask ε)) :
    (runTasks scene ts).1 =
      (ts.filter (fun t => decide (0 < (taskErrors scene t).length))).map
        (fun t => ⟨t, taskErrors scene t⟩) := by
  induction ts with
  | nil => rfl
  | cons t ts ih =>
    simp only [runTasks, List.filter]
    by_cases he : 0 < (taskErrors scene t).length
    · rw [if_pos he]
      simp only [decide_eq_true he, List.map]
      exact congrArg (_ :: ·) ih
    · rw [if_neg he]
      simp only [decide_eq_false he]
      exact ih

/-- The progress-call log of the task loop: one call with percentage 0 and the
message "Validating" and one call with percentage 100, per task, in order. -/
theorem runTasks_calls {ε : Type} (scene : Scene) (ts : List (PublishTask ε)) :
    (runTasks scene ts).2 =
      ts.flatMap (fun t => [⟨0, some "Validating", some t⟩, ⟨100, none, none⟩]) := by
  induction ts with
  | nil => rfl
  | cons t ts ih =>
    simp only [runTasks, List.flatMap_cons]
    exact congrArg (_ :: _ :: ·) ih

/-- Every returned result belongs to an input task and carries exactly the
error list the dispatch computed for it. -/
theorem mem_runTasks_results {ε : Type} (scene : Scene) (ts : List (PublishTask ε))
    (r : TaskResult ε) (hr : r ∈ (runTasks scene ts).1) :
    r.task ∈ ts ∧ r.errors = taskErrors scene r.task := by
  rw [runTasks_results] at hr
  obtain ⟨t, ht, hmap⟩ := List.mem_map.mp hr
  cases hmap
  exact ⟨List.mem_of_mem_filter ht, rfl⟩

/-- In a duplicate-free list containing c, exactly one element equals c. -/
theorem filter_beq_length_one {c : String} :
    ∀ L : List String, L.Nodup → c ∈ L →
      (L.filter (fun x => x == c)).length = 1 := by
  intro L
  induction L with
  | nil => intro _ hc; cases hc
  | cons a L ih =>
    intro hnd hc
    have hna : a ∉ L := (List.nodup_cons.mp hnd).1
    have hndL : L.Nodup := (List.nodup_cons.mp hnd).2
    rcases List.mem_cons.mp hc with hca | hcL
    · subst hca
      have hfe : L.filter (fun x => x == c) = [] := by
        refine List.filter_eq_nil_iff.mpr ?_
        intro x hx
        simp only [beq_iff_eq]
        intro hxc
        exact hna (hxc ▸ hx)
      simp [List.filter, hfe]
    · have hac : (a == c) = false := by
        refine beq_eq_false_iff_ne.mpr ?_
        intro hacq
        exact hna (hacq ▸ hcL)
      simp [List.filter, hac, ih hndL hcL]

/-- Filtering the camera items built from a camera list by name keeps exactly
the cameras of that name. -/
theorem filter_cam_map (c : String) :
    ∀ L : List String,
      (L.map (fun x => (⟨"camera", x, none⟩ : Item))).filter
          (fun i => i.type == "camera" && i.name == c)
        = (L.filter (fun x => x == c)).map (fun x => (⟨"camera", x, none⟩ : Item)) := by
  intro L
  induction L with
  | nil => rfl
  | cons a L ih =>
    cases hac : (a == c) with
    | true => simp [List.filter_cons, hac, ih]
    | false => simp [List.filter_cons, hac, ih]

/-- The results of PrePublishHook.execute, in closed form: the failing tasks
in input order, paired with their computed errors. -/
theorem prePublish_results {ε υ : Type} (scene : Scene) (tasks : List (PublishTask ε))
    (userData : υ) :
    (prePublishExecute scene tasks userData).1 =
      (tasks.filter (fun t => decide (0 < (taskErrors scene t).length))).map
        (fun t => ⟨t, taskErrors scene t⟩) :=
  runTasks_results scene tasks

/-! ## Claims -/

/-- C1: if the scene document has never been saved to disk (the scene-name
query returns an empty path), scan() raises the scene-not-saved error with the
message asking the user to save, and returns no items at all (no partial item
list is produced). -/
theorem scan_unsaved_scene_aborts (scene : Scene) (eng : Engine) (app : App)
    (h : scene.sceneName = "") :
    scanItems scene eng app = Except.error "Please Save your file before Publishing"
    ∧ ∀ its : List Item, scanItems scene eng app ≠ Except.ok its := by
  have he : scanItems scene eng app =
      Except.error "Please Save your file before Publishing" := by
    simp [scanItems, h]
  exact ⟨he, fun its hok => by rw [he] at hok; cases hok⟩

/-- Witness for C1: a concrete never-saved scene aborts with the save-first
message. -/
theorem scan_unsaved_scene_aborts_witness :
    scanItems cUnsaved cEng4 cApp4 =
      Except.error "Please Save your file before Publishing" :=
  (scan_unsaved_scene_aborts cUnsaved cEng4 cApp4 rfl).1

/-- C2, corrected: on the empty task list, validate() returns the empty result
list, returns user_data unchanged, and performs no progress-callback
invocation at all (the progress calls happen inside the per-task loop, which
does not run). -/
theorem validate_empty_tasks {ε υ : Type} (scene : Scene) (userData : υ) :
    prePublishExecute scene ([] : List (PublishTask ε)) userData = ([], [], userData) :=
  rfl

/-- Counterexample for C2 as stated: on the empty task list the progress
callback is never invoked, in particular not with percentage 0 nor with
percentage 100. -/
theorem validate_empty_tasks_counterexample :
    (prePublishExecute pScene ([] : List (PublishTask Unit)) (0 : Nat)).1 = []
    ∧ (prePublishExecute pScene ([] : List (PublishTask Unit)) (0 : Nat)).2.1 = []
    ∧ ¬ (∃ c ∈ (prePublishExecute pScene ([] : List (PublishTask Unit)) (0 : Nat)).2.1,
          c.percentage = 0)
    ∧ ¬ (∃ c ∈ (prePublishExecute pScene ([] : List (PublishTask Unit)) (0 : Nat)).2.1,
          c.percentage = 100) := by
  refine ⟨rfl, rfl, ?_, ?_⟩ <;> rintro ⟨c, hc, -⟩ <;> cases hc

/-- C7: a task appears in validate()'s result list iff its computed error list
is non-empty, and the result list is the input order restricted to failing
tasks, each paired with its error list. -/
theorem validate_order_preserving {ε υ : Type} (scene : Scene)
    (tasks : List (PublishTask ε)) (userData : υ) :
    (prePublishExecute scene tasks userData).1 =
      (tasks.filter (fun t => decide (0 < (taskErrors scene t).length))).map
        (fun t => ⟨t, taskErrors scene t⟩)
    ∧ ∀ t ∈ tasks,
        ((∃ r ∈ (prePublishExecute scene tasks userData).1, r.task = t)
          ↔ taskErrors scene t ≠ []) := by
  refine ⟨prePublish_results scene tasks userData, fun t ht => ⟨?_, ?_⟩⟩
  · rintro ⟨r, hr, hrt⟩
    have hmem := (mem_runTasks_results scene tasks r hr).2
    rw [prePublish_results] at hr
    obtain ⟨t', ht', heq⟩ := List.mem_map.mp hr
    have hlen : 0 < (taskErrors scene t').length := by
      have := List.of_mem_filter ht'
      simpa using this
    have htt : t' = t := by rw [← hrt, ← heq]
    rw [← htt]
    intro hnil
    rw [hnil] at hlen
    simp at hlen
  · intro hne
    refine ⟨⟨t, taskErrors scene t⟩, ?_, rfl⟩
    rw [prePublish_results]
    refine List.mem_map.mpr ⟨t, List.mem_filter.mpr ⟨ht, ?_⟩, rfl⟩
    simpa using List.length_pos.mpr hne

/-- Witness for C7: a concrete failing task appears in the result list. -/
theorem validate_order_preserving_witness :
    (∃ r ∈ (prePublishExecute pScene [uTask] (0 : Nat)).1, r.task = uTask) :=
  ((validate_order_preserving pScene [uTask] (0 : Nat)).2 uTask (by decide)).mpr
    (by decide)

/-- C9: the rendered-image pass normalizes the render-layer name by replacing
"defaultRenderLayer" with "masterLayer" before the field mapping is built, and
no field mapping it builds can carry the layer name "defaultRenderLayer": the
replacement of scan-hook line 139 can never return the string
"defaultRenderLayer". -/
theorem scan_layer_normalized :
    normalizeLayer "defaultRenderLayer" = "masterLayer"
    ∧ ∀ (camera layer0 sanitized : String) (version : Nat),
        (buildFields camera (normalizeLayer layer0) sanitized version).mayaLayerName
          ≠ "defaultRenderLayer" := by
  refine ⟨rfl, fun camera layer0 sanitized version h => ?_⟩
  have hdata : replaceAll dLayer mLayer layer0.data = dLayer :=
    congrArg String.data h
  exact replaceAll_dLayer_ne layer0.data hdata

/-- Witness for C9: the field mapping built for the default render layer
carries "masterLayer", not "defaultRenderLayer". -/
theorem scan_layer_normalized_witness :
    ¬ (buildFields "cam1" (normalizeLayer "defaultRenderLayer") "shot" 3).mayaLayerName
        = "defaultRenderLayer" :=
  scan_layer_normalized.2 "cam1" "defaultRenderLayer" "shot" 3

/-- C10: validate() returns user_data unchanged, its results and progress
calls do not depend on user_data (it is never read), and every result carries
one of the very input task values, with every field of the task, item and
output dictionaries (the payload ε included) untouched. -/
theorem validate_frame_effects {ε υ : Type} (scene : Scene)
    (tasks : List (PublishTask ε)) (ud ud' : υ) :
    (prePublishExecute scene tasks ud).2.2 = ud
    ∧ (prePublishExecute scene tasks ud).1 = (prePublishExecute scene tasks ud').1
    ∧ (prePublishExecute scene tasks ud).2.1 = (prePublishExecute scene tasks ud').2.1
    ∧ ∀ r ∈ (prePublishExecute scene tasks ud).1, r.task ∈ tasks :=
  ⟨rfl, rfl, rfl, fun r hr => (mem_runTasks_results scene tasks r hr).1⟩

/-- Witness for C10: a concrete run returns its user_data value unchanged and
its single result's task is the input task. -/
theorem validate_frame_effects_witness :
    (prePublishExecute pScene [uTask] (5 : Nat)).2.2 = 5
    ∧ (⟨uTask, ["Don\'t know how to publish this item!"]⟩ : TaskResult Unit).task
        ∈ [uTask] :=
  ⟨(validate_frame_effects pScene [uTask] (5 : Nat) (5 : Nat)).1,
    (validate_frame_effects pScene [uTask] (5 : Nat) (5 : Nat)).2.2.2
      ⟨uTask, ["Don\'t know how to publish this item!"]⟩ (by decide)⟩

/-- C5: an alembic_cache task whose item name does not exist in the scene gets
a result containing the group-not-found error, and that result never contains
the no-meshes error: the mesh-descendant check is the elif branch of the
existence check and is skipped when the existence check fails. -/
theorem validate_alembic_missing_group {ε υ : Type} (scene : Scene)
    (tasks : List (PublishTask ε)) (userData : υ) (t : PublishTask ε)
    (ht : t ∈ tasks) (hout : t.outputName = "alembic_cache")
    (hobj : scene.objExists t.itemName = false) :
    (∃ r ∈ (prePublishExecute scene tasks userData).1, r.task = t)
    ∧ ∀ r ∈ (prePublishExecute scene tasks userData).1, r.task = t →
        ("This group couldn\'t be found in the scene!" ∈ r.errors
          ∧ "This group doesn\'t appear to contain any meshes!" ∉ r.errors) := by
  have herr : taskErrors scene t = validateAlembicItem scene t.itemName := by
    simp [taskErrors, hout]
  have hgroup : "This group couldn\'t be found in the scene!"
      ∈ validateAlembicItem scene t.itemName := by
    simp [validateAlembicItem, hobj]
  have hnomesh : "This group doesn\'t appear to contain any meshes!"
      ∉ validateAlembicItem scene t.itemName := by
    simp only [validateAlembicItem, hobj, Bool.not_false, if_true]
    intro hmem
    rcases List.mem_append.mp hmem with h12 | h3
    · rcases List.mem_append.mp h12 with h1 | h2
      · by_cases hb : (!scene.abcExportExists) = true
        · rw [if_pos hb] at h1
          rw [List.mem_singleton] at h1
          exact absurd h1 (by decide)
        · rw [if_neg hb] at h1
          cases h1
      · by_cases hb : scene.geometry.isEmpty = true
        · rw [if_pos hb] at h2
          rw [List.mem_singleton] at h2
          exact absurd h2 (by decide)
        · rw [if_neg hb] at h2
          cases h2
    · rw [List.mem_singleton] at h3
      exact absurd h3 (by decide)
  constructor
  · refine ⟨⟨t, taskErrors scene t⟩, ?_, rfl⟩
    rw [prePublish_results]
    refine List.mem_map.mpr ⟨t, List.mem_filter.mpr ⟨ht, ?_⟩, rfl⟩
    have : taskErrors scene t ≠ [] := by
      rw [herr]
      exact List.ne_nil_of_mem hgroup
    simpa using List.length_pos.mpr this
  · intro r hr hrt
    have hre := (mem_runTasks_results scene tasks r hr).2
    rw [hrt] at hre
    rw [hre, herr]
    exact ⟨hgroup, hnomesh⟩

/-- Witness for C5: a concrete alembic_cache task naming a non-existent group
yields a result with the group-not-found error and without the no-meshes
error. -/
theorem validate_alembic_missing_group_witness :
    (∃ r ∈ (prePublishExecute pScene [aTask] (0 : Nat)).1, r.task = aTask)
    ∧ ∀ r ∈ (prePublishExecute pScene [aTask] (0 : Nat)).1, r.task = aTask →
        ("This group couldn\'t be found in the scene!" ∈ r.errors
          ∧ "This group doesn\'t appear to contain any meshes!" ∉ r.errors) :=
  validate_alembic_missing_group pScene [aTask] (0 : Nat) aTask (by decide) rfl
    (by decide)

/-- C6: a task whose output name is none of alembic_cache, rendered_image or
camera gets exactly one error string, the unsupported-output message, and the
task always appears in the returned result list. -/
theorem validate_unsupported_output {ε υ : Type} (scene : Scene)
    (tasks : List (PublishTask ε)) (userData : υ) (t : PublishTask ε)
    (ht : t ∈ tasks) (h1 : t.outputName ≠ "alembic_cache")
    (h2 : t.outputName ≠ "rendered_image") (h3 : t.outputName ≠ "camera") :
    taskErrors scene t = ["Don\'t know how to publish this item!"]
    ∧ ∃ r ∈ (prePublishExecute scene tasks userData).1,
        r.task = t ∧ r.errors = ["Don\'t know how to publish this item!"] := by
  have herr : taskErrors scene t = ["Don\'t know how to publish this item!"] := by
    simp [taskErrors, h1, h2, h3]
  refine ⟨herr, ⟨t, taskErrors scene t⟩, ?_, rfl, herr⟩
  rw [prePublish_results]
  refine List.mem_map.mpr ⟨t, List.mem_filter.mpr ⟨ht, ?_⟩, rfl⟩
  rw [herr]
  decide

/-- Witness for C6: a concrete task with an unimplemented output name yields
exactly the single unsupported-output error and appears in the result list. -/
theorem validate_unsupported_output_witness :
    taskErrors pScene uTask = ["Don\'t know how to publish this item!"]
    ∧ ∃ r ∈ (prePublishExecute pScene [uTask] (0 : Nat)).1,
        r.task = uTask ∧ r.errors = ["Don\'t know how to publish this item!"] :=
  validate_unsupported_output pScene [uTask] (0 : Nat) uTask (by decide)
    (by decide) (by decide) (by decide)

/-- Counterexample for C3 as stated: the name of an emitted rendered_image
item is not a composition involving the sanitized scene name.  Two scans that
differ only in the scene file name (sanitized names "shot" and "other") emit
rendered_image items with the identical name "camCam1_masterLayer", and the
sanitized scene name does not occur in that name. -/
theorem scan_render_name_counterexample :
    scanItems cScene4 cEng4 cApp4 = Except.ok
      [⟨"work_file", "shot.v003.ma", none⟩, ⟨"camera", "cam1", none⟩,
        ⟨"rendered_image", "camCam1_masterLayer", some "abstract.png"⟩]
    ∧ scanItems cSceneB cEng4 cApp4 = Except.ok
      [⟨"work_file", "other.v003.ma", none⟩, ⟨"camera", "cam1", none⟩,
        ⟨"rendered_image", "camCam1_masterLayer", some "abstract.png"⟩]
    ∧ sanitizeName (basename (cScene4.abspath cScene4.sceneName)) = "shot"
    ∧ sanitizeName (basename (cSceneB.abspath cSceneB.sceneName)) = "other"
    ∧ hasSub "shot".data "camCam1_masterLayer".data = false
    ∧ hasSub "other".data "camCam1_masterLayer".data = false :=
  ⟨rfl, rfl, rfl, rfl, rfl, rfl⟩

/-- C3, amended: every rendered_image item emitted by scan() has a name that
is a deterministic composition of the camera name and the normalized layer
name only, namely the one computed by `renderItemName` (the sanitized scene
name goes into the template fields but not into the item name); the name is
therefore stable across runs for the same (camera, layer) pair. -/
theorem scan_render_item_names (scene : Scene) (eng : Engine) (app : App)
    (its : List Item) (h : scanItems scene eng app = Except.ok its) :
    ∀ i ∈ its, i.type = "rendered_image" →
      ∃ camera ∈ cameraList scene, ∃ layer0 ∈ scene.renderLayers,
        renderItemName camera (normalizeLayer layer0) = Except.ok i.name := by
  obtain ⟨-, rend, hrend, hits⟩ := scanItems_ok scene eng app its h
  subst hits
  intro i hi hty
  rcases List.mem_append.mp hi with hb | hr
  · rcases mem_baseItems scene _ i hb with h1 | h2 | ⟨c, -, h3⟩ | ⟨g, -, h4⟩
    · rw [h1] at hty
      exact absurd hty (by decide : ("work_file" : String) ≠ "rendered_image")
    · rw [h2] at hty
      exact absurd hty (by decide : ("geometry" : String) ≠ "rendered_image")
    · rw [h3] at hty
      exact absurd hty (by decide : ("camera" : String) ≠ "rendered_image")
    · rw [h4] at hty
      exact absurd hty (by decide : ("mesh_group" : String) ≠ "rendered_image")
  · obtain ⟨camera, hcam, layer0, hlay, nm, p, ps, hnm, -, hieq⟩ :=
      scanRenderItems_ok_mem scene eng app _ _ rend hrend i hr
    subst hieq
    exact ⟨camera, hcam, layer0, hlay, hnm⟩

/-- Witness for C3 amended: the concrete rendered item name
"camCam1_masterLayer" is the composition for camera "cam1" and the normalized
default layer. -/
theorem scan_render_item_names_witness :
    ∃ camera ∈ cameraList cScene4, ∃ layer0 ∈ cScene4.renderLayers,
      renderItemName camera (normalizeLayer layer0) =
        Except.ok (Item.name ⟨"rendered_image", "camCam1_masterLayer", some "abstract.png"⟩) :=
  scan_render_item_names cScene4 cEng4 cApp4
    [⟨"work_file", "shot.v003.ma", none⟩, ⟨"camera", "cam1", none⟩,
      ⟨"rendered_image", "camCam1_masterLayer", some "abstract.png"⟩] rfl
    ⟨"rendered_image", "camCam1_masterLayer", some "abstract.png"⟩ (by decide) rfl

/-- Counterexample for C4 as stated: in a concrete scan where the exact
resolution finds the existing path "existing.png" but the abstract resolution
returns "abstract.png", the single emitted rendered_image item carries
"abstract.png" — not the first path the existing-on-disk resolution
returned. -/
theorem scan_render_first_path_counterexample :
    cEng4.pathsFromTemplate (buildFields "cam1" "masterLayer" "shot" 3) = ["existing.png"]
    ∧ scanItems cScene4 cEng4 cApp4 = Except.ok
      [⟨"work_file", "shot.v003.ma", none⟩, ⟨"camera", "cam1", none⟩,
        ⟨"rendered_image", "camCam1_masterLayer", some "abstract.png"⟩]
    ∧ (some "abstract.png" : Option String) ≠ some "existing.png" :=
  ⟨rfl, rfl, by decide⟩

/-- C4, amended: for every (camera, layer) pair considered during the
rendered-image pass, if the exact template resolution returns no existing
on-disk path then no item is emitted; if it returns one or more paths then
exactly one rendered_image item is emitted, and its other_params.path is the
first path returned by the abstract resolution for that field mapping (which
need not be an existing on-disk path; and when the abstract resolution is
empty the pass raises an IndexError instead of emitting). -/
theorem scan_render_pair_emission (eng : Engine) (sanitized camera layer0 : String)
    (version : Nat) :
    (eng.pathsFromTemplate (buildFields camera (normalizeLayer layer0) sanitized version)
        = [] →
      renderItemForLayer eng sanitized version camera layer0 = Except.ok [])
    ∧ (∀ nm p ps,
        eng.pathsFromTemplate (buildFields camera (normalizeLayer layer0) sanitized version)
            ≠ []
        → renderItemName camera (normalizeLayer layer0) = Except.ok nm
        → eng.abstractPathsFromTemplate
            (buildFields camera (normalizeLayer layer0) sanitized version) = p :: ps
        → renderItemForLayer eng sanitized version camera layer0 =
            Except.ok [⟨"rendered_image", nm, some p⟩])
    ∧ (∀ nm,
        eng.pathsFromTemplate (buildFields camera (normalizeLayer layer0) sanitized version)
            ≠ []
        → renderItemName camera (normalizeLayer layer0) = Except.ok nm
        → eng.abstractPathsFromTemplate
            (buildFields camera (normalizeLayer layer0) sanitized version) = []
        → renderItemForLayer eng sanitized version camera layer0 =
            Except.error "IndexError: list index out of range") := by
  refine ⟨fun hp => ?_, fun nm p ps hne hnm hpaths => ?_, fun nm hne hnm hpaths => ?_⟩
  · simp [renderItemForLayer, hp]
  · have hie : (eng.pathsFromTemplate
        (buildFields camera (normalizeLayer layer0) sanitized version)).isEmpty = false := by
      simpa [List.isEmpty_iff] using hne
    simp [renderItemForLayer, hie, hnm, hpaths]
  · have hie : (eng.pathsFromTemplate
        (buildFields camera (normalizeLayer layer0) sanitized version)).isEmpty = false := by
      simpa [List.isEmpty_iff] using hne
    simp [renderItemForLayer, hie, hnm, hpaths]

/-- Witness for C4 amended: for the concrete engine, camera "cam1" and the
default layer, the pair emits exactly one item carrying the head of the
abstract resolution. -/
theorem scan_render_pair_emission_witness :
    renderItemForLayer cEng4 "shot" 3 "cam1" "defaultRenderLayer" =
      Except.ok [⟨"rendered_image", "camCam1_masterLayer", some "abstract.png"⟩] :=
  (scan_render_pair_emission cEng4 "shot" "cam1" "defaultRenderLayer" 3).2.1
    "camCam1_masterLayer" "abstract.png" [] (by decide) rfl rfl

/-- C8: the default perspective camera persp never appears as a camera item in
scan()'s output, and every other camera of the scene's camera enumeration (the
listCameras query the hook consumes, assumed duplicate-free as the host
guarantees) yields exactly one camera item named after that camera. -/
theorem scan_camera_items (scene : Scene) (eng : Engine) (app : App) (its : List Item)
    (h : scanItems scene eng app = Except.ok its) (hnd : scene.listCamerasP.Nodup) :
    (∀ i ∈ its, i.type = "camera" → i.name ≠ "persp")
    ∧ ∀ c ∈ scene.listCamerasP, c ≠ "persp" →
        (its.filter (fun i => i.type == "camera" && i.name == c)).length = 1 := by
  obtain ⟨-, rend, hrend, hits⟩ := scanItems_ok scene eng app its h
  subst hits
  have hrendtype : ∀ i ∈ rend, i.type = "rendered_image" := by
    intro i hi
    obtain ⟨cam, hcam, l0, hl0, nm, p, ps, hnm, hpaths, hieq⟩ :=
      scanRenderItems_ok_mem scene eng app _ _ rend hrend i hi
    rw [hieq]
  constructor
  · intro i hi hty hpersp
    rcases List.mem_append.mp hi with hb | hr
    · rcases mem_baseItems scene _ i hb with h1 | h2 | ⟨c, hcmem, h3⟩ | ⟨g, -, h4⟩
      · rw [h1] at hty
        exact absurd hty (by decide : ("work_file" : String) ≠ "camera")
      · rw [h2] at hty
        exact absurd hty (by decide : ("geometry" : String) ≠ "camera")
      · have hcp : c ≠ "persp" := by
          simpa using (List.mem_filter.mp hcmem).2
        rw [h3] at hpersp
        exact hcp hpersp
      · rw [h4] at hty
        exact absurd hty (by decide : ("mesh_group" : String) ≠ "camera")
    · rw [hrendtype i hr] at hty
      exact absurd hty (by decide : ("rendered_image" : String) ≠ "camera")
  · intro c hc hcp
    have hfrend : rend.filter (fun i => i.type == "camera" && i.name == c) = [] := by
      refine List.filter_eq_nil_iff.mpr ?_
      intro i hi
      rw [hrendtype i hi]
      simp
    have hfwf : List.filter (fun i => i.type == "camera" && i.name == c)
        [(⟨"work_file", basename (scene.abspath scene.sceneName), none⟩ : Item)] = [] := rfl
    have hfgeo : List.filter (fun i => i.type == "camera" && i.name == c)
        (if scene.geometry.isEmpty then []
         else [(⟨"geometry", "All Scene Geometry", none⟩ : Item)]) = [] := by
      cases hg : scene.geometry.isEmpty <;> simp [hg, List.filter]
    have hfmesh : List.filter (fun i => i.type == "camera" && i.name == c)
        ((scene.assemblies.filter (fun g => !(scene.meshesUnder g).isEmpty)).map
          (fun g => (⟨"mesh_group", g, none⟩ : Item))) = [] := by
      refine List.filter_eq_nil_iff.mpr ?_
      intro i hi
      obtain ⟨g, hg, hieq⟩ := List.mem_map.mp hi
      rw [← hieq]
      simp
    have hccam : c ∈ cameraList scene := by
      refine List.mem_filter.mpr ⟨hc, ?_⟩
      simpa using hcp
    have hcnd : (cameraList scene).Nodup := hnd.filter _
    rw [List.filter_append, List.length_append, hfrend]
    unfold baseItems
    rw [List.filter_append, List.filter_append, List.filter_append, hfwf, hfgeo, hfmesh,
      filter_cam_map]
    simp [filter_beq_length_one (cameraList scene) hcnd hccam]

/-- Witness for C8: in the concrete scan, the camera "cam1" yields exactly one
camera item. -/
theorem scan_camera_items_witness :
    ([(⟨"work_file", "shot.v003.ma", none⟩ : Item), ⟨"camera", "cam1", none⟩,
        ⟨"rendered_image", "camCam1_masterLayer", some "abstract.png"⟩].filter
      (fun i => i.type == "camera" && i.name == "cam1")).length = 1 :=
  (scan_camera_items cScene4 cEng4 cApp4
      [⟨"work_file", "shot.v003.ma", none⟩, ⟨"camera", "cam1", none⟩,
        ⟨"rendered_image", "camCam1_masterLayer", some "abstract.png"⟩] rfl
      (by decide)).2 "cam1" (by decide) (by decide)

end ConfigInicial
